import Mathlib

/-!
Verification development for the Twitter Status Bot core (`bot.py`):
the bot-global sticker-set slot manager (`get_sticker_set`,
`clean_sticker_set`, `get_sticker_id`) and the two-phase inline
selection flow (`inline`, `handle_chosen_inline_result`, `message`).

Modelling conventions:
* Platform-assigned sticker file ids are natural numbers; the platform
  state carries a counter and hands out `counter + 1` on each
  registration, so every assigned id is positive (Telegram file ids are
  non-empty strings, hence always truthy in Python).
* Python strings are Lean `String`s; `str.startswith` is embedded as a
  character-wise prefix test on `String.data`.
* The per-user Python dict `temp_file_ids` is an insertion-ordered
  association list with Python dict update semantics.
* The rendering collaborator `build_sticker` (module `twitter`, treated
  as an opaque external by the spec) is a parameter `renderOk`; a
  `false` result models a raised `HyphenationError`.
-/

/-- Telegram-side state of the single bot-global sticker set:
`stickerSet` is `none` while the set does not exist yet, otherwise the
list of sticker file ids in append order; `nextFileId` counts the ids
the platform has assigned so far. -/
structure TgState where
  stickerSet : Option (List Nat)
  nextFileId : Nat
deriving Repr, DecidableEq

/-- Embeds `get_sticker_set` (bot.py lines 123-142): returns the sticker
set if it exists; on the "invalid" BadRequest (set absent) it creates the
set with the single seed sticker (the logo png) and fetches it again. -/
def get_sticker_set (s : TgState) : TgState × List Nat :=
  match s.stickerSet with
  | some stickers => (s, stickers)
  | none =>
    let fid := s.nextFileId + 1
    ({ stickerSet := some [fid], nextFileId := fid }, [fid])

/-- Embeds `clean_sticker_set` (bot.py lines 145-161): fetches the set
(creating it if needed) and deletes every sticker but the first,
tolerating "Stickerset_not_modified" responses. -/
def clean_sticker_set (s : TgState) : TgState :=
  let (s1, stickers) := get_sticker_set s
  if stickers.length > 1 then
    { s1 with stickerSet := some (stickers.take 1) }
  else s1

/-- Embeds `get_sticker_id` (bot.py lines 164-194): trims the set, renders
the sticker (a failed render raises `HyphenationError`, modelled as the
`none` result, with the state as already trimmed), ensures the set exists,
appends the fresh sticker and returns the last sticker's file id. -/
def get_sticker_id (renderOk : String → Bool) (text : String) (s : TgState) :
    TgState × Option Nat :=
  let s1 := clean_sticker_set s
  if renderOk text then
    let (s2, stickers2) := get_sticker_set s1
    let fid := s2.nextFileId + 1
    let s3 : TgState := { stickerSet := some (stickers2 ++ [fid]), nextFileId := fid }
    let (s4, stickers4) := get_sticker_set s3
    (s4, some (stickers4.getLastD 0))
  else (s1, none)

/-- Per-user (per-session) storage: `file_ids` is the confirmed History
(`user_data['file_ids']`), `temp_file_ids` the pending key-to-file-id
dict (`user_data['temp_file_ids']`) as an insertion-ordered list. -/
structure UserData where
  file_ids : List Nat
  temp_file_ids : List (String × Nat)
deriving Repr, DecidableEq

/-- Python dict update `d[k] = v`: overwrites in place if the key is
present, otherwise appends the new entry. -/
def dictInsert (d : List (String × Nat)) (k : String) (v : Nat) :
    List (String × Nat) :=
  if d.any (fun p => p.1 == k) then
    d.map (fun p => if p.1 == k then (k, v) else p)
  else d ++ [(k, v)]

/-- Python dict lookup `d.get(k)`. -/
def dictGet (d : List (String × Nat)) (k : String) : Option Nat :=
  (d.find? (fun p => p.1 == k)).map (fun p => p.2)

/-- Character-wise prefix test on `List Char`. -/
def startswithAux : List Char → List Char → Bool
  | _, [] => true
  | [], _ :: _ => false
  | c :: cs, p :: ps => c == p && startswithAux cs ps

/-- Embeds Python `s.startswith(pre)`. -/
def startswith (s pre : String) : Bool :=
  startswithAux s.data pre.data

/-- One inline answer candidate (`InlineQueryResultCachedSticker`). -/
structure Candidate where
  id : String
  sticker_file_id : Nat
deriving Repr, DecidableEq

/-- The History candidates of an inline answer (bot.py lines 226-232):
`file_ids` reversed (most recent first), each with the id `tweet i`. -/
def historyResults (file_ids : List Nat) : List Candidate :=
  (file_ids.reverse.enum).map (fun p => ⟨"tweet " ++ toString p.1, p.2⟩)

/-- The inline answer sent back: the candidate list, and the optional
`switch_pm_text` / `switch_pm_parameter` pair used on a render failure. -/
structure InlineAnswer where
  results : List Candidate
  switch_pm : Option (String × String)
deriving Repr, DecidableEq

/-- Embeds the `inline` handler (bot.py lines 216-254). `key` is the
fresh `str(uuid4())` correlation key supplied for this invocation. The
final `clean_sticker_set` call (line 254) runs on every path. -/
def inline_handler (renderOk : String → Bool) (key : String) (query : String)
    (ud : UserData) (tg : TgState) : UserData × TgState × InlineAnswer :=
  let results := historyResults ud.file_ids
  if query = "" then
    (ud, clean_sticker_set tg, ⟨results, none⟩)
  else
    match get_sticker_id renderOk query tg with
    | (tg2, some fid) =>
      let ud2 : UserData :=
        { ud with temp_file_ids := dictInsert ud.temp_file_ids key fid }
      (ud2, clean_sticker_set tg2, ⟨⟨key, fid⟩ :: results, none⟩)
    | (tg2, none) =>
      (ud, clean_sticker_set tg2,
        ⟨[], some ("Click me!", "hyphenation_error")⟩)

/-- Modelled from the spec: the user-facing message of the rendering
failure (`twitter.HyphenationError`, whose source module is an external
collaborator); the spec only requires that it is reported to the user
as-is, so its exact text is opaque here. -/
def hyphenationErrorMessage : String :=
  "HyphenationError"

/-- A reply sent by the `message` handler. -/
inductive Reply
  | sticker (file_id : Nat)
  | text (t : String)
deriving Repr, DecidableEq

/-- Embeds the `message` handler (bot.py lines 197-213): publishes the
sticker and replies with it, appending its file id to History; on
`HyphenationError` replies with the error text; trims the set at the
end on every path (line 213). -/
def message (renderOk : String → Bool) (text : String) (ud : UserData)
    (tg : TgState) : UserData × TgState × Reply :=
  match get_sticker_id renderOk text tg with
  | (tg2, some fid) =>
    ({ ud with file_ids := ud.file_ids ++ [fid] }, clean_sticker_set tg2,
      .sticker fid)
  | (tg2, none) =>
    (ud, clean_sticker_set tg2, .text hyphenationErrorMessage)

/-- Embeds `handle_chosen_inline_result` (bot.py lines 257-271): if the
chosen result id does not start with `tweet`, looks it up in the pending
dict, appends the found (truthy) file id to History and clears the whole
pending dict; for a `tweet`-prefixed id it does nothing at all. -/
def handle_chosen_inline_result (result_id : String) (ud : UserData) :
    UserData :=
  if startswith result_id "tweet" then ud
  else
    match dictGet ud.temp_file_ids result_id with
    | some fid =>
      if fid ≠ 0 then
        { file_ids := ud.file_ids ++ [fid], temp_file_ids := [] }
      else { ud with temp_file_ids := [] }
    | none => { ud with temp_file_ids := [] }

/-- Modelled from the spec / the Python `uuid` library (an external
collaborator): `str(uuid4())` is a 36-character string over lowercase
hex digits and dashes. -/
def isUuid4String (s : String) : Bool :=
  s.length = 36 && s.data.all (fun c => "0123456789abcdef-".data.contains c)

/-- The operations claim C1 ranges over: a publish (`get_sticker_id`,
with the text to render) or a trim (`clean_sticker_set`). -/
inductive CollOp
  | publish (text : String)
  | trim
deriving Repr, DecidableEq

/-- The platform state after one collection operation. -/
def applyOp (renderOk : String → Bool) (s : TgState) : CollOp → TgState
  | .publish t => (get_sticker_id renderOk t s).1
  | .trim => clean_sticker_set s

/-- The platform state after a sequence of collection operations. -/
def runOps (renderOk : String → Bool) (s : TgState) (ops : List CollOp) :
    TgState :=
  ops.foldl (applyOp renderOk) s

/-- The number of stickers currently in the collection (0 when the set
does not exist). -/
def collSize (s : TgState) : Nat :=
  (s.stickerSet.getD []).length

/-- The collection has the seed plus at most one live artifact. -/
def sizeBounded (s : TgState) : Prop :=
  ∃ l, s.stickerSet = some l ∧ (l.length = 1 ∨ l.length = 2)

lemma get_sticker_set_of_some {s : TgState} {l : List Nat}
    (h : s.stickerSet = some l) : get_sticker_set s = (s, l) := by
  simp [get_sticker_set, h]

lemma get_sticker_set_fst_stickerSet (s : TgState) :
    (get_sticker_set s).1.stickerSet = some (get_sticker_set s).2 := by
  rcases s with ⟨set, n⟩
  cases set <;> simp [get_sticker_set]

lemma clean_sticker_set_eq (s : TgState) :
    clean_sticker_set s =
      ⟨some ((get_sticker_set s).2.take 1), (get_sticker_set s).1.nextFileId⟩ := by
  rcases s with ⟨set, n⟩
  cases set with
  | none => simp [clean_sticker_set, get_sticker_set]
  | some l =>
    match l with
    | [] => simp [clean_sticker_set, get_sticker_set]
    | [a] => simp [clean_sticker_set, get_sticker_set]
    | a :: b :: rest => simp [clean_sticker_set, get_sticker_set]

lemma get_sticker_id_of_renderFail {renderOk : String → Bool} {t : String}
    (s : TgState) (h : renderOk t = false) :
    get_sticker_id renderOk t s = (clean_sticker_set s, none) := by
  simp [get_sticker_id, h]

lemma get_sticker_id_of_renderOk {renderOk : String → Bool} {t : String}
    (s : TgState) (h : renderOk t = true) :
    get_sticker_id renderOk t s =
      (⟨some ((get_sticker_set s).2.take 1 ++ [(get_sticker_set s).1.nextFileId + 1]),
        (get_sticker_set s).1.nextFileId + 1⟩,
       some ((get_sticker_set s).1.nextFileId + 1)) := by
  have hclean := clean_sticker_set_eq s
  simp only [get_sticker_id, h, if_true, hclean]
  have hget :
      get_sticker_set
          ⟨some ((get_sticker_set s).2.take 1), (get_sticker_set s).1.nextFileId⟩ =
        (⟨some ((get_sticker_set s).2.take 1), (get_sticker_set s).1.nextFileId⟩,
         (get_sticker_set s).2.take 1) :=
    get_sticker_set_of_some rfl
  simp only [hget]
  have hlast : ∀ (l : List Nat) (x : Nat), (l ++ [x]).getLastD 0 = x := by
    intro l x
    induction l with
    | nil => rfl
    | cons a as ih =>
      cases as with
      | nil => rfl
      | cons b bs => simp [List.getLastD] at ih ⊢
  simp [get_sticker_set, hlast]

lemma sizeBounded_clean {s : TgState} (h : sizeBounded s) :
    ∃ a, clean_sticker_set s = ⟨some [a], s.nextFileId⟩ := by
  rcases h with ⟨l, hset, hlen⟩
  have hget := get_sticker_set_of_some hset
  rcases l with _ | ⟨a, rest⟩
  · simp at hlen
  · exact ⟨a, by simp [clean_sticker_set_eq, hget]⟩

lemma sizeBounded_applyOp {renderOk : String → Bool} {s : TgState}
    (h : sizeBounded s) (op : CollOp) : sizeBounded (applyOp renderOk s op) := by
  rcases h with ⟨l, hset, hlen⟩
  rcases l with _ | ⟨a, rest⟩
  · simp at hlen
  have hget := get_sticker_set_of_some hset
  cases op with
  | trim =>
    refine ⟨[a], ?_, Or.inl rfl⟩
    simp [applyOp, clean_sticker_set_eq, hget]
  | publish t =>
    cases hrt : renderOk t with
    | false =>
      refine ⟨[a], ?_, Or.inl rfl⟩
      simp [applyOp, get_sticker_id_of_renderFail s hrt, clean_sticker_set_eq, hget]
    | true =>
      refine ⟨[a, s.nextFileId + 1], ?_, Or.inr rfl⟩
      simp [applyOp, get_sticker_id_of_renderOk s hrt, hget]

lemma sizeBounded_runOps {renderOk : String → Bool} {s : TgState}
    (h : sizeBounded s) (ops : List CollOp) :
    sizeBounded (runOps renderOk s ops) := by
  induction ops generalizing s with
  | nil => exact h
  | cons op ops ih => exact ih (sizeBounded_applyOp h op)

lemma startswithAux_of_append (p r : List Char) :
    startswithAux (p ++ r) p = true := by
  induction p with
  | nil => cases r <;> rfl
  | cons c cs ih => simp [startswithAux, ih]

lemma exists_append_of_startswithAux {l p : List Char}
    (h : startswithAux l p = true) : ∃ r, l = p ++ r := by
  induction p generalizing l with
  | nil => exact ⟨l, rfl⟩
  | cons c cs ih =>
    cases l with
    | nil => simp [startswithAux] at h
    | cons d ds =>
      simp only [startswithAux, Bool.and_eq_true, beq_iff_eq] at h
      rcases ih h.2 with ⟨r, hr⟩
      exact ⟨r, by simp [h.1, hr]⟩

lemma startswith_tweet_of_append (t : String) :
    startswith ("tweet " ++ t) "tweet" = true := by
  have hdata : ("tweet " ++ t).data = "tweet".data ++ (' ' :: t.data) := by
    rw [String.data_append]
    rfl
  rw [startswith, hdata]
  exact startswithAux_of_append _ _

lemma startswith_eq_false_of_uuid {s : String} (h : isUuid4String s = true) :
    startswith s "tweet" = false := by
  rcases Bool.and_eq_true _ _ |>.mp h with ⟨-, hall⟩
  by_contra hsw
  rw [Bool.not_eq_false] at hsw
  rcases exists_append_of_startswithAux hsw with ⟨r, hr⟩
  have hd : s.data = 't' :: (['w', 'e', 'e', 't'] ++ r) := by
    rw [hr]; rfl
  rw [hd] at hall
  simp [List.all_cons] at hall

lemma map_snd_enumFrom {α : Type} (n : Nat) (l : List α) :
    (List.enumFrom n l).map Prod.snd = l := by
  induction l generalizing n with
  | nil => rfl
  | cons a as ih => simp [List.enumFrom, ih]

lemma historyResults_map_file_id (l : List Nat) :
    (historyResults l).map Candidate.sticker_file_id = l.reverse := by
  unfold historyResults List.enum
  rw [List.map_map]
  exact map_snd_enumFrom 0 l.reverse

lemma historyResults_id_tweet {l : List Nat} {c : Candidate}
    (h : c ∈ historyResults l) : startswith c.id "tweet" = true := by
  rcases List.mem_map.mp h with ⟨p, -, hc⟩
  rw [← hc]
  exact startswith_tweet_of_append _

example : get_sticker_set ⟨none, 0⟩ = (⟨some [1], 1⟩, [1]) := rfl
example : clean_sticker_set ⟨some [1, 2, 3], 3⟩ = ⟨some [1], 3⟩ := rfl
example :
    get_sticker_id (fun _ => true) "hi" ⟨some [1, 2], 2⟩ =
      (⟨some [1, 3], 3⟩, some 3) := rfl
example :
    get_sticker_id (fun _ => false) "hi" ⟨some [1, 2], 2⟩ =
      (⟨some [1], 2⟩, none) := rfl
example :
    inline_handler (fun _ => true) "k1" "hello" ⟨[], []⟩ ⟨some [1], 1⟩ =
      (⟨[], [("k1", 2)]⟩, ⟨some [1], 2⟩, ⟨[⟨"k1", 2⟩], none⟩) := rfl
example : startswith "tweet 0" "tweet" = true := rfl
example : startswith "123e4567-e89b-42d3-a456-426614174000" "tweet" = false := rfl

/-- Claim C1: starting from a seeded Collection, every sequence of
publish (`get_sticker_id`) and trim (`clean_sticker_set`) operations
keeps the Collection size at 1 or 2, never 0 and never more than 2;
moreover the trim keeps exactly the first (seed) sticker, and a publish
on a freshly trimmed Collection adds exactly one sticker. -/
theorem claim_C1_collection_size (renderOk : String → Bool) (s : TgState)
    (ops : List CollOp) (hseed : ∃ a, s.stickerSet = some [a]) :
    (collSize (runOps renderOk s ops) = 1 ∨ collSize (runOps renderOk s ops) = 2)
    ∧ (∀ s' a l, s'.stickerSet = some (a :: l) →
        (clean_sticker_set s').stickerSet = some [a])
    ∧ (∀ t s' a, renderOk t = true → s'.stickerSet = some [a] →
        (get_sticker_id renderOk t s').1.stickerSet =
          some [a, s'.nextFileId + 1]) := by
  refine ⟨?_, ?_, ?_⟩
  · rcases hseed with ⟨a, ha⟩
    have h0 : sizeBounded s := ⟨[a], ha, Or.inl rfl⟩
    rcases @sizeBounded_runOps renderOk s h0 ops with ⟨l, hset, hlen⟩
    rcases hlen with h1 | h2
    · exact Or.inl (by simp [collSize, hset, h1])
    · exact Or.inr (by simp [collSize, hset, h2])
  · intro s' a l h
    simp [clean_sticker_set_eq, get_sticker_set_of_some h]
  · intro t s' a hrt h
    simp [get_sticker_id_of_renderOk s' hrt, get_sticker_set_of_some h]

theorem claim_C1_collection_size_witness :
    collSize (runOps (fun _ => true) ⟨some [1], 1⟩
        [CollOp.publish "a", CollOp.trim]) = 1 ∨
      collSize (runOps (fun _ => true) ⟨some [1], 1⟩
        [CollOp.publish "a", CollOp.trim]) = 2 :=
  (claim_C1_collection_size (fun _ => true) ⟨some [1], 1⟩
    [CollOp.publish "a", CollOp.trim] ⟨1, rfl⟩).1

/-- Claim C4: when the chosen result's key matches the session's current
PendingSelection (a non-History key present in the pending dict, its file
id platform-assigned and hence non-zero), the pending reference is
appended to the session's History — length grows by exactly one, with the
promoted reference last — and the PendingSelection dict is cleared. -/
theorem claim_C4_promotion (ud : UserData) (key : String) (fid : Nat)
    (hkey : startswith key "tweet" = false)
    (hpend : dictGet ud.temp_file_ids key = some fid) (hfid : fid ≠ 0) :
    (handle_chosen_inline_result key ud).file_ids = ud.file_ids ++ [fid]
    ∧ (handle_chosen_inline_result key ud).file_ids.length =
        ud.file_ids.length + 1
    ∧ (handle_chosen_inline_result key ud).temp_file_ids = [] := by
  simp [handle_chosen_inline_result, hkey, hpend, hfid]

theorem claim_C4_promotion_witness :
    (handle_chosen_inline_result "a" ⟨[], [("a", 1)]⟩).file_ids = [1]
    ∧ (handle_chosen_inline_result "a" ⟨[], [("a", 1)]⟩).temp_file_ids = [] := by
  have h := claim_C4_promotion ⟨[], [("a", 1)]⟩ "a" 1 (by decide) (by decide)
    (by decide)
  exact ⟨h.1, h.2.2⟩

/-- Claim C6 counterexample: a chosen result for the History candidate
`tweet 0` leaves a stale PendingSelection entry in place — the pending
dict is NOT cleared by the handler, contradicting the claim. -/
theorem claim_C6_counterexample :
    (handle_chosen_inline_result "tweet 0" ⟨[5], [("k", 7)]⟩).temp_file_ids =
      [("k", 7)] := by
  decide

/-- Claim C6 amended: when the chosen result refers to a History
candidate (its id starts with `tweet`), nothing is appended to History
and the handler leaves the session state entirely unchanged — in
particular a stale PendingSelection is NOT cleared (it is only cleared
when a non-History result id is processed). -/
theorem claim_C6_history_pick (rid : String) (ud : UserData)
    (h : startswith rid "tweet" = true) :
    handle_chosen_inline_result rid ud = ud := by
  simp [handle_chosen_inline_result, h]

theorem claim_C6_history_pick_witness :
    handle_chosen_inline_result "tweet 0" ⟨[5], [("j", 7)]⟩ =
      (⟨[5], [("j", 7)]⟩ : UserData) :=
  claim_C6_history_pick "tweet 0" ⟨[5], [("j", 7)]⟩ (by decide)

/-- Claim C8: `get_sticker_set` is idempotent — a second call returns
exactly the state and value of the first; when the set exists it is
returned unmodified (an existing set is success, never failure), and
when it does not exist it is created with exactly one seed sticker. -/
theorem claim_C8_ensure_seeded_idempotent (s : TgState) :
    get_sticker_set (get_sticker_set s).1 = get_sticker_set s
    ∧ (∀ l, s.stickerSet = some l → get_sticker_set s = (s, l))
    ∧ (s.stickerSet = none →
        (get_sticker_set s).1.stickerSet = some [s.nextFileId + 1]
        ∧ (get_sticker_set s).2 = [s.nextFileId + 1]) := by
  refine ⟨?_, ?_, ?_⟩
  · rw [get_sticker_set_of_some (get_sticker_set_fst_stickerSet s)]
  · intro l h
    exact get_sticker_set_of_some h
  · intro h
    rcases s with ⟨set, n⟩
    simp only at h
    subst h
    exact ⟨rfl, rfl⟩

theorem claim_C8_ensure_seeded_idempotent_witness :
    get_sticker_set (get_sticker_set ⟨none, 0⟩).1 = get_sticker_set ⟨none, 0⟩
    ∧ get_sticker_set ⟨some [3], 5⟩ = (⟨some [3], 5⟩, [3]) :=
  ⟨(claim_C8_ensure_seeded_idempotent ⟨none, 0⟩).1,
   (claim_C8_ensure_seeded_idempotent ⟨some [3], 5⟩).2.1 [3] rfl⟩

lemma collSize_clean_of_one {tg : TgState} (h : collSize tg = 1) :
    ∃ a, clean_sticker_set tg = ⟨some [a], tg.nextFileId⟩ := by
  have hb : sizeBounded tg := by
    rcases hset : tg.stickerSet with _ | l
    · simp [collSize, hset] at h
    · exact ⟨l, hset, Or.inl (by simpa [collSize, hset] using h)⟩
  exact sizeBounded_clean hb

lemma collSize_clean_clean_of_one {tg : TgState} (h : collSize tg = 1) :
    collSize (clean_sticker_set (clean_sticker_set tg)) = 1 := by
  rcases collSize_clean_of_one h with ⟨a, ha⟩
  rw [ha]
  simp [clean_sticker_set_eq, get_sticker_set_of_some (rfl : (⟨some [a], tg.nextFileId⟩ : TgState).stickerSet = some [a]), collSize]

/-- The `inline` handler on a non-empty query with a successful render,
written out: the pending dict gains the key mapped to the fresh file id,
the platform state is the trimmed post-append state, and the answer is
the fresh candidate followed by the History candidates. -/
lemma inline_handler_success (renderOk : String → Bool) (key q : String)
    (ud : UserData) (tg : TgState) (hq : q ≠ "") (hr : renderOk q = true) :
    inline_handler renderOk key q ud tg =
      ({ ud with temp_file_ids :=
          dictInsert ud.temp_file_ids key ((get_sticker_set tg).1.nextFileId + 1) },
       clean_sticker_set
         ⟨some ((get_sticker_set tg).2.take 1 ++ [(get_sticker_set tg).1.nextFileId + 1]),
          (get_sticker_set tg).1.nextFileId + 1⟩,
       ⟨⟨key, (get_sticker_set tg).1.nextFileId + 1⟩ :: historyResults ud.file_ids,
        none⟩) := by
  simp [inline_handler, hq, get_sticker_id_of_renderOk tg hr]

/-- Claim C5: the inline answer is ordered pending-first, then History in
reverse chronological order — on a successful render of a non-empty query
the fresh pending candidate heads the list followed by the History
candidates most-recent-first; on a render failure the candidate list is
empty (so the ordering holds vacuously); and on an empty query the answer
contains exactly the History candidates in reverse chronological order,
with no new artifact published (the platform state undergoes only the
routine trim) and no PendingSelection created (the user state is
untouched). -/
theorem claim_C5_answer_ordering (renderOk : String → Bool)
    (key q : String) (ud : UserData) (tg : TgState) :
    (q = "" →
      inline_handler renderOk key q ud tg =
        (ud, clean_sticker_set tg, ⟨historyResults ud.file_ids, none⟩)
      ∧ (historyResults ud.file_ids).map Candidate.sticker_file_id =
          ud.file_ids.reverse)
    ∧ (q ≠ "" → renderOk q = true →
        ∃ fid, (inline_handler renderOk key q ud tg).2.2.results =
            ⟨key, fid⟩ :: historyResults ud.file_ids
          ∧ (inline_handler renderOk key q ud tg).2.2.results.map
              Candidate.sticker_file_id = fid :: ud.file_ids.reverse)
    ∧ (q ≠ "" → renderOk q = false →
        (inline_handler renderOk key q ud tg).2.2.results = []) := by
  refine ⟨?_, ?_, ?_⟩
  · intro hq
    subst hq
    exact ⟨by simp [inline_handler], historyResults_map_file_id ud.file_ids⟩
  · intro hq hr
    refine ⟨(get_sticker_set tg).1.nextFileId + 1, ?_, ?_⟩
    · rw [inline_handler_success renderOk key q ud tg hq hr]
    · rw [inline_handler_success renderOk key q ud tg hq hr]
      simp [historyResults_map_file_id ud.file_ids]
  · intro hq hr
    simp [inline_handler, hq, get_sticker_id_of_renderFail tg hr]

theorem claim_C5_answer_ordering_witness :
    inline_handler (fun _ => true) "k" "" ⟨[4], []⟩ ⟨some [1], 1⟩ =
      ((⟨[4], []⟩ : UserData), clean_sticker_set ⟨some [1], 1⟩,
        ⟨historyResults [4], none⟩)
    ∧ (∃ fid,
        (inline_handler (fun _ => true) "k2" "hi" ⟨[4], []⟩ ⟨some [1], 1⟩).2.2.results =
          ⟨"k2", fid⟩ :: historyResults [4])
    ∧ (inline_handler (fun _ => false) "k" "x" ⟨[4], []⟩ ⟨some [1], 1⟩).2.2.results =
        [] := by
  refine ⟨?_, ?_, ?_⟩
  · exact ((claim_C5_answer_ordering (fun _ => true) "k" "" ⟨[4], []⟩
      ⟨some [1], 1⟩).1 rfl).1
  · obtain ⟨fid, h1, -⟩ := (claim_C5_answer_ordering (fun _ => true) "k2" "hi"
      ⟨[4], []⟩ ⟨some [1], 1⟩).2.1 (by decide) rfl
    exact ⟨fid, h1⟩
  · exact (claim_C5_answer_ordering (fun _ => false) "k" "x" ⟨[4], []⟩
      ⟨some [1], 1⟩).2.2 (by decide) rfl

/-- Claim C9: when rendering fails (HyphenationError), the `message`
handler replies with exactly the rendering failure message (nothing is
retried or escalated by the handler), History and the pending dict stay
untouched, and the Collection size is unchanged from its steady state 1;
likewise a failing non-empty inline query creates no PendingSelection,
leaves the whole user state untouched, directs the user to the failure
message via the switch-to-private-chat button, and keeps the Collection
size at 1. -/
theorem claim_C9_render_failure (renderOk : String → Bool)
    (t key : String) (ud : UserData) (tg : TgState)
    (hfail : renderOk t = false) :
    message renderOk t ud tg =
      (ud, clean_sticker_set (clean_sticker_set tg), .text hyphenationErrorMessage)
    ∧ (collSize tg = 1 → collSize (message renderOk t ud tg).2.1 = 1)
    ∧ (t ≠ "" →
        (inline_handler renderOk key t ud tg).1 = ud
        ∧ (inline_handler renderOk key t ud tg).2.2.switch_pm =
            some ("Click me!", "hyphenation_error")
        ∧ (collSize tg = 1 →
            collSize (inline_handler renderOk key t ud tg).2.1 = 1)) := by
  refine ⟨?_, ?_, ?_⟩
  · simp [message, get_sticker_id_of_renderFail tg hfail]
  · intro h1
    simp only [message, get_sticker_id_of_renderFail tg hfail]
    exact collSize_clean_clean_of_one h1
  · intro ht
    refine ⟨?_, ?_, ?_⟩
    · simp [inline_handler, ht, get_sticker_id_of_renderFail tg hfail]
    · simp [inline_handler, ht, get_sticker_id_of_renderFail tg hfail]
    · intro h1
      simp only [inline_handler, ht, get_sticker_id_of_renderFail tg hfail]
      simpa using collSize_clean_clean_of_one h1

theorem claim_C9_render_failure_witness :
    message (fun _ => false) "x" ⟨[2], []⟩ ⟨some [1], 1⟩ =
      ((⟨[2], []⟩ : UserData),
        clean_sticker_set (clean_sticker_set ⟨some [1], 1⟩),
        .text hyphenationErrorMessage)
    ∧ collSize (message (fun _ => false) "x" ⟨[2], []⟩ ⟨some [1], 1⟩).2.1 = 1
    ∧ (inline_handler (fun _ => false) "k" "x" ⟨[2], []⟩ ⟨some [1], 1⟩).1 =
        (⟨[2], []⟩ : UserData) := by
  have h := claim_C9_render_failure (fun _ => false) "x" "k" ⟨[2], []⟩
    ⟨some [1], 1⟩ rfl
  exact ⟨h.1, h.2.1 rfl, (h.2.2 (by decide)).1⟩

/-- Claim C2 counterexample: two non-empty inline queries in a row leave
TWO coexisting entries in the session's pending dict — the second
PendingSelection neither removes nor overwrites the first, so more than
one PendingSelection exists at that moment. -/
theorem claim_C2_counterexample :
    ((inline_handler (fun _ => true) "k2" "world"
        (inline_handler (fun _ => true) "k1" "hello" ⟨[], []⟩ ⟨some [1], 1⟩).1
        (inline_handler (fun _ => true) "k1" "hello" ⟨[], []⟩
          ⟨some [1], 1⟩).2.1).1).temp_file_ids =
      [("k1", 2), ("k2", 3)] := by
  decide

/-- Claim C2 amended: pending selections accumulate rather than
supersede — an inline query with a fresh (not yet used) key appends its
mapping to the session's pending dict, leaving every earlier pending
entry in place; the dict is only emptied as a whole when a
chosen-result notification with a non-History id is processed. -/
theorem claim_C2_pending_accumulates (renderOk : String → Bool)
    (key q : String) (ud : UserData) (tg : TgState)
    (hq : q ≠ "") (hr : renderOk q = true)
    (hfresh : ud.temp_file_ids.any (fun p => p.1 == key) = false) :
    (∃ fid, (inline_handler renderOk key q ud tg).1.temp_file_ids =
        ud.temp_file_ids ++ [(key, fid)])
    ∧ (∀ rid ud', startswith rid "tweet" = false →
        (handle_chosen_inline_result rid ud').temp_file_ids = []) := by
  constructor
  · refine ⟨(get_sticker_set tg).1.nextFileId + 1, ?_⟩
    rw [inline_handler_success renderOk key q ud tg hq hr]
    simp [dictInsert, hfresh]
  · intro rid ud' hrid
    unfold handle_chosen_inline_result
    simp only [hrid, Bool.false_eq_true, if_false]
    rcases hg : dictGet ud'.temp_file_ids rid with _ | fid
    · simp
    · by_cases hf : fid = 0 <;> simp [hf]

theorem claim_C2_pending_accumulates_witness :
    (∃ fid,
      (inline_handler (fun _ => true) "k9" "hello"
        ⟨[], [("k1", 5)]⟩ ⟨some [1], 1⟩).1.temp_file_ids =
        [("k1", 5)] ++ [("k9", fid)])
    ∧ (handle_chosen_inline_result "z" ⟨[], [("k1", 5)]⟩).temp_file_ids = [] := by
  have h := claim_C2_pending_accumulates (fun _ => true) "k9" "hello"
    ⟨[], [("k1", 5)]⟩ ⟨some [1], 1⟩ (by decide) rfl (by decide)
  exact ⟨h.1, h.2 "z" ⟨[], [("k1", 5)]⟩ (by decide)⟩

/-- Claim C3 counterexample: after inline query "hello" (key k1) and then
"world" (key k2) with no chosen result in between, a chosen-result event
citing the FIRST key k1 still appends the first pending reference (file
id 2) to the History (which was empty) — the first PendingSelection is
not abandoned, contradicting the claim that such an event appends
nothing. -/
theorem claim_C3_counterexample :
    (handle_chosen_inline_result "k1"
      (inline_handler (fun _ => true) "k2" "world"
        (inline_handler (fun _ => true) "k1" "hello" ⟨[], []⟩ ⟨some [1], 1⟩).1
        (inline_handler (fun _ => true) "k1" "hello" ⟨[], []⟩
          ⟨some [1], 1⟩).2.1).1).file_ids = [2] := by
  decide

/-- Claim C3 amended: a second inline query before any chosen-result
notification does NOT abandon the first PendingSelection — both pending
mappings stay live, and a chosen-result event citing either key appends
that key's own reference to History (and clears the whole pending
dict). Stated from the steady state: seeded collection, no pending
entries, arbitrary History. -/
theorem claim_C3_no_abandonment (renderOk : String → Bool)
    (k1 k2 q1 q2 : String) (fh : List Nat) (a m : Nat)
    (hq1 : q1 ≠ "") (hq2 : q2 ≠ "")
    (hr1 : renderOk q1 = true) (hr2 : renderOk q2 = true)
    (hk1 : startswith k1 "tweet" = false)
    (hk2 : startswith k2 "tweet" = false)
    (hne : k1 ≠ k2) :
    ∃ fid1 fid2, fid1 ≠ 0 ∧ fid2 ≠ 0 ∧ fid1 ≠ fid2 ∧
      (handle_chosen_inline_result k1
        (inline_handler renderOk k2 q2
          (inline_handler renderOk k1 q1 ⟨fh, []⟩ ⟨some [a], m⟩).1
          (inline_handler renderOk k1 q1 ⟨fh, []⟩ ⟨some [a], m⟩).2.1).1).file_ids =
        fh ++ [fid1]
      ∧ (handle_chosen_inline_result k2
          (inline_handler renderOk k2 q2
            (inline_handler renderOk k1 q1 ⟨fh, []⟩ ⟨some [a], m⟩).1
            (inline_handler renderOk k1 q1 ⟨fh, []⟩ ⟨some [a], m⟩).2.1).1).file_ids =
        fh ++ [fid2]
      ∧ (handle_chosen_inline_result k1
          (inline_handler renderOk k2 q2
            (inline_handler renderOk k1 q1 ⟨fh, []⟩ ⟨some [a], m⟩).1
            (inline_handler renderOk k1 q1 ⟨fh, []⟩ ⟨some [a], m⟩).2.1).1).temp_file_ids =
        [] := by
  have hne' : (k1 == k2) = false := beq_eq_false_iff_ne.mpr hne
  have hself1 : (k1 == k1) = true := beq_self_eq_true k1
  have hself2 : (k2 == k2) = true := beq_self_eq_true k2
  have h1 : inline_handler renderOk k1 q1 ⟨fh, []⟩ ⟨some [a], m⟩ =
      (⟨fh, [(k1, m + 1)]⟩, ⟨some [a], m + 1⟩,
        ⟨⟨k1, m + 1⟩ :: historyResults fh, none⟩) := by
    rw [inline_handler_success renderOk k1 q1 ⟨fh, []⟩ ⟨some [a], m⟩ hq1 hr1]
    simp [get_sticker_set, dictInsert, clean_sticker_set]
  have h2 : inline_handler renderOk k2 q2 ⟨fh, [(k1, m + 1)]⟩ ⟨some [a], m + 1⟩ =
      (⟨fh, [(k1, m + 1), (k2, m + 2)]⟩, ⟨some [a], m + 2⟩,
        ⟨⟨k2, m + 2⟩ :: historyResults fh, none⟩) := by
    rw [inline_handler_success renderOk k2 q2 ⟨fh, [(k1, m + 1)]⟩
      ⟨some [a], m + 1⟩ hq2 hr2]
    simp [get_sticker_set, dictInsert, clean_sticker_set, hne']
  refine ⟨m + 1, m + 2, by omega, by omega, by omega, ?_, ?_, ?_⟩
  · rw [h1]
    simp only [h2]
    simp [handle_chosen_inline_result, hk1, dictGet, List.find?, hself1]
  · rw [h1]
    simp only [h2]
    simp [handle_chosen_inline_result, hk2, dictGet, List.find?, hself2, hne']
  · rw [h1]
    simp only [h2]
    simp [handle_chosen_inline_result, hk1, dictGet, List.find?, hself1]

theorem claim_C3_no_abandonment_witness :
    ∃ fid1 fid2, fid1 ≠ 0 ∧ fid2 ≠ 0 ∧ fid1 ≠ fid2 ∧
      (handle_chosen_inline_result "k1"
        (inline_handler (fun _ => true) "k2" "world"
          (inline_handler (fun _ => true) "k1" "hello" ⟨[9], []⟩ ⟨some [1], 1⟩).1
          (inline_handler (fun _ => true) "k1" "hello" ⟨[9], []⟩
            ⟨some [1], 1⟩).2.1).1).file_ids = [9] ++ [fid1]
      ∧ (handle_chosen_inline_result "k2"
          (inline_handler (fun _ => true) "k2" "world"
            (inline_handler (fun _ => true) "k1" "hello" ⟨[9], []⟩ ⟨some [1], 1⟩).1
            (inline_handler (fun _ => true) "k1" "hello" ⟨[9], []⟩
              ⟨some [1], 1⟩).2.1).1).file_ids = [9] ++ [fid2]
      ∧ (handle_chosen_inline_result "k1"
          (inline_handler (fun _ => true) "k2" "world"
            (inline_handler (fun _ => true) "k1" "hello" ⟨[9], []⟩ ⟨some [1], 1⟩).1
            (inline_handler (fun _ => true) "k1" "hello" ⟨[9], []⟩
              ⟨some [1], 1⟩).2.1).1).temp_file_ids = [] :=
  claim_C3_no_abandonment (fun _ => true) "k1" "k2" "hello" "world" [9] 1 1
    (by decide) (by decide) rfl rfl (by decide) (by decide) (by decide)

/-- Claim C10: the id namespaces of the two candidate kinds are
disjoint — every History candidate id starts with `tweet`, while a
UUID4 key (36 characters over hex digits and dashes) never does; hence
the chosen-result handler's prefix test classifies every chosen result
correctly: a History pick leaves the session state unchanged (never
promoted), while a UUID key is looked up in the pending dict (the dict
is cleared, and the looked-up reference — when present and truthy — is
the one appended to History). -/
theorem claim_C10_namespaces_disjoint :
    (∀ (l : List Nat) (c : Candidate), c ∈ historyResults l →
      startswith c.id "tweet" = true)
    ∧ (∀ s : String, isUuid4String s = true → startswith s "tweet" = false)
    ∧ (∀ (l : List Nat) (c : Candidate) (ud : UserData), c ∈ historyResults l →
        handle_chosen_inline_result c.id ud = ud)
    ∧ (∀ (s : String) (ud : UserData), isUuid4String s = true →
        (handle_chosen_inline_result s ud).temp_file_ids = []
        ∧ ∀ fid, dictGet ud.temp_file_ids s = some fid → fid ≠ 0 →
            (handle_chosen_inline_result s ud).file_ids =
              ud.file_ids ++ [fid]) := by
  refine ⟨?_, ?_, ?_, ?_⟩
  · intro l c hc
    exact historyResults_id_tweet hc
  · intro s hs
    exact startswith_eq_false_of_uuid hs
  · intro l c ud hc
    simp [handle_chosen_inline_result, historyResults_id_tweet hc]
  · intro s ud hs
    have hsw := startswith_eq_false_of_uuid hs
    constructor
    · unfold handle_chosen_inline_result
      simp only [hsw, Bool.false_eq_true, if_false]
      rcases hg : dictGet ud.temp_file_ids s with _ | fid
      · simp
      · by_cases hf : fid = 0 <;> simp [hf]
    · intro fid hg hf
      simp [handle_chosen_inline_result, hsw, hg, hf]

theorem claim_C10_namespaces_disjoint_witness :
    startswith (Candidate.id ⟨"tweet 0", 3⟩) "tweet" = true
    ∧ startswith "123e4567-e89b-42d3-a456-426614174000" "tweet" = false
    ∧ handle_chosen_inline_result "tweet 0" ⟨[3], [("k", 7)]⟩ =
        (⟨[3], [("k", 7)]⟩ : UserData) := by
  refine ⟨?_, ?_, ?_⟩
  · exact (claim_C10_namespaces_disjoint.1 [3] ⟨"tweet 0", 3⟩ (by decide))
  · exact claim_C10_namespaces_disjoint.2.1
      "123e4567-e89b-42d3-a456-426614174000" (by decide)
  · exact (claim_C10_namespaces_disjoint.2.2.1 [3] ⟨"tweet 0", 3⟩
      ⟨[3], [("k", 7)]⟩ (by decide))
